import Mathlib

/-!
Shallow embedding of the RWA (risk-weighted assets) calculator of
`rwa_calculator.py` (class `RWACalculator`), the module imported by the
application entry point.  Money, weights and ratios are modelled as exact
rationals (`ℚ`); Python floats carry no other role here than exact decimal
arithmetic on the values the program manipulates.  An exposure row is an
association list from field names to values; `row.get key default` mirrors
`row.get(key, default)`.  Fallible Python operations (the `float(...)`
coercion, which raises `ValueError` on a non-numeric string) are modelled
with `Except String`.
-/

deriving instance DecidableEq for Except

/-- A value stored in an exposure row: a string, a number, or a boolean.
(The upstream validator produces these three shapes; `NaN` floats are not
modelled.) -/
inductive FieldVal where
  | str (s : String)
  | num (q : ℚ)
  | bool (b : Bool)
deriving DecidableEq

/-- An exposure row: field name ↦ value, no duplicate keys intended. -/
def Row := List (String × FieldVal)

/-- Model of `row.get(key, default)` on a mapping: first binding wins. -/
def Row.get : Row → String → FieldVal → FieldVal
  | [], _, d => d
  | (k, v) :: rest, key, d => if key == k then v else Row.get rest key d

/-- ASCII lowercase of one character, as `str.lower()` does on ASCII.
(The source only ever lowercases ASCII segment/usage/maturity markers.) -/
def lowChar (c : Char) : Char :=
  if 'A' ≤ c ∧ c ≤ 'Z' then Char.ofNat (c.toNat + 32) else c

/-- ASCII uppercase of one character, as `str.upper()` does on ASCII. -/
def upChar (c : Char) : Char :=
  if 'a' ≤ c ∧ c ≤ 'z' then Char.ofNat (c.toNat - 32) else c

/-- Model of `s.lower()` (ASCII). -/
def pyLower (s : String) : String := String.mk (s.data.map lowChar)

/-- Model of `s.upper()` (ASCII). -/
def pyUpper (s : String) : String := String.mk (s.data.map upChar)

/-- Python `str.strip()` whitespace class (the common ASCII whitespace). -/
def isSpaceChar (c : Char) : Bool :=
  c == ' ' || c == '\t' || c == '\n' || c == '\r'

/-- Model of `s.strip()`: drop leading and trailing whitespace. -/
def pyStrip (s : String) : String :=
  String.mk (((s.data.dropWhile isSpaceChar).reverse.dropWhile isSpaceChar).reverse)

/-- Substring occurrence over character lists (used by `strContains`). -/
def containsChars (needle : List Char) : List Char → Bool
  | [] => needle.isEmpty
  | c :: rest => needle.isPrefixOf (c :: rest) || containsChars needle rest

/-- Python `needle in hay` on strings: substring containment (the empty
string is contained in every string, as in Python). -/
def strContains (hay needle : String) : Bool := containsChars needle.data hay.data

/-- Model of `str(value)` for a row value.  String values pass through; booleans
print as Python does.  For numbers we use Lean's rational printing — a
modelling stand-in for Python's float `repr`, never exercised by the
program on the fields the claims touch (those fields are strings). -/
def pyStr : FieldVal → String
  | .str s => s
  | .num q => toString q
  | .bool b => if b then "True" else "False"

/-- Python truthiness of a row value (`if row.get(k, False):`). -/
def pyTruthy : FieldVal → Bool
  | .str s => s ≠ ""
  | .num q => q ≠ 0
  | .bool b => b

/-- Value of a digit string (helper for the `float(...)` model). -/
def digitsVal (cs : List Char) : ℕ :=
  cs.foldl (fun a c => a * 10 + (c.toNat - 48)) 0

/-- Parse an unsigned decimal literal (`"12"`, `"12.5"`, `".5"`, `"12."`),
the forms `float(...)` accepts apart from sign, exponent and the special
words; anything else is rejected, as `float("abc")` is. -/
def parseUnsigned (cs : List Char) : Option ℚ :=
  let intPart := cs.takeWhile (fun c => ¬ (c == '.'))
  let rest := cs.dropWhile (fun c => ¬ (c == '.'))
  if intPart.all Char.isDigit then
    match rest with
    | [] => if intPart.isEmpty then none else some (digitsVal intPart)
    | _ :: frac =>
      if frac.all Char.isDigit ∧ (¬ intPart.isEmpty ∨ ¬ frac.isEmpty) then
        some ((digitsVal intPart : ℚ) + (digitsVal frac : ℚ) / ((10 : ℚ) ^ frac.length))
      else none
  else none

/-- Python `float(s)` on a string: strips whitespace, handles an optional
sign, then requires a decimal literal; raises `ValueError` otherwise. -/
def pyFloatOfString (s : String) : Except String ℚ :=
  match (pyStrip s).data with
  | '+' :: cs =>
    match parseUnsigned cs with
    | some q => Except.ok q
    | none => Except.error ("could not convert string to float: " ++ s)
  | '-' :: cs =>
    match parseUnsigned cs with
    | some q => Except.ok (-q)
    | none => Except.error ("could not convert string to float: " ++ s)
  | cs =>
    match parseUnsigned cs with
    | some q => Except.ok q
    | none => Except.error ("could not convert string to float: " ++ s)

/-- Python `float(value)` on a row value. -/
def pyFloat : FieldVal → Except String ℚ
  | .num q => Except.ok q
  | .bool b => Except.ok (if b then 1 else 0)
  | .str s => pyFloatOfString s

/-- Model of `float(row.get(key, 0))` — the amount-coercion idiom of the source. -/
def getNum (row : Row) (key : String) : Except String ℚ :=
  pyFloat (row.get key (FieldVal.num 0))

/-- Model of `str(row.get(key, ''))` — the string-field idiom of the source. -/
def getStr (row : Row) (key : String) : String :=
  pyStr (row.get key (FieldVal.str ""))

/-- Model of `row.get(key, False)` used as a condition — the flag idiom of the source. -/
def getFlag (row : Row) (key : String) : Bool :=
  pyTruthy (row.get key (FieldVal.bool false))

/-!
Static weight tables of `RWACalculator._initialize_rating_weights` and
`_initialize_pmae_weights`.  Python dicts iterate in insertion order, so an
association list is a faithful image.
-/

/-- Model of `rating_weights['general']`. -/
def general_rating_table : List (String × ℚ) :=
  [("AAA à AA-", 0.20),
   ("A+ à A-", 0.50),
   ("BBB+ à BBB-", 0.50),
   ("BB+ à BB-", 1.00),
   ("B+ à B-", 1.00),
   ("Inférieure à B-", 1.50),
   ("Pas de notation", 0.50)]

/-- Model of `rating_weights['credit_short_term']`. -/
def credit_short_term_table : List (String × ℚ) :=
  [("A-1", 0.20), ("A-2", 0.50), ("A-3", 1.00), ("Inférieure à A-3", 1.50)]

/-- Model of `rating_weights['enterprise_short_term']` (same entries as the credit one). -/
def enterprise_short_term_table : List (String × ℚ) :=
  [("A-1", 0.20), ("A-2", 0.50), ("A-3", 1.00), ("Inférieure à A-3", 1.50)]

/-- Model of `pmae_weights`. -/
def pmae_weights : List (String × ℚ) :=
  [("0", 0.00), ("1", 0.00), ("2", 0.20), ("3", 0.50),
   ("4", 1.00), ("5", 1.00), ("6", 1.00), ("7", 1.50)]

/-- Model of `dict.get(key)`: value of the first binding of the key, if any. -/
def tableLookup : List (String × ℚ) → String → Option ℚ
  | [], _ => none
  | p :: rest, k => if p.1 == k then some p.2 else tableLookup rest k

/-- The `for rating_range, weight in table.items(): if rating in rating_range
or rating == rating_range: return weight` loop of `_get_rating_weighting`:
first table entry whose key has the (already normalized) rating as a
substring — note that the empty rating is a substring of every key. -/
def ratingTableScan : List (String × ℚ) → String → Option ℚ
  | [], _ => none
  | p :: rest, r =>
    if strContains p.1 r || r == p.1 then some p.2 else ratingTableScan rest r

/-- The table selection of `_get_rating_weighting`: the two short-term
categories pick their own table (`self.rating_weights.get(category, {})` —
both keys exist), every other category falls to the general table. -/
def categoryTable (category : String) : List (String × ℚ) :=
  if category == "credit_short_term" || category == "enterprise_short_term" then
    (if category == "credit_short_term" then credit_short_term_table
     else enterprise_short_term_table)
  else general_rating_table

/-- The closing `elif` chain of `_get_rating_weighting` ("recherche par
gamme"): substring heuristics over the normalized rating, ending in the
0.50 no-rating default. -/
def ratingFallback (r : String) : ℚ :=
  if strContains r "AAA" || strContains r "AA" then 0.20
  else if strContains r "A+" || strContains r "A" || strContains r "A-" then 0.50
  else if strContains r "BBB" then 0.50
  else if strContains r "BB" then 1.00
  else if strContains r "B+" || strContains r "B" || strContains r "B-" then 1.00
  else if strContains r "CCC" || strContains r "CC" || strContains r "C"
          || strContains r "D" then 1.50
  else 0.50

/-- Model of `RWACalculator._get_rating_weighting(rating, category)`: normalize the
rating (`str(rating).upper().strip()`), scan the category table, then run
the substring fallback chain. -/
def get_rating_weighting (rating : String) (category : String) : ℚ :=
  let r := pyStrip (pyUpper rating)
  match ratingTableScan (categoryTable category) r with
  | some w => w
  | none => ratingFallback r

/-- Model of `RWACalculator._calculate_sovereign_weighting`. -/
def calculate_sovereign_weighting (row : Row) : ℚ :=
  let sous_segment := pyLower (getStr row "sous_segment")
  let monnaie := pyUpper (getStr row "monnaie")
  if (strContains sous_segment "maroc" || strContains sous_segment "bam"
      || strContains sous_segment "bank al-maghrib") && monnaie == "MAD" then 0.0
  else if ["bis", "banque des règlements internationaux",
           "fonds monétaire international", "fmi", "banque centrale européenne",
           "bce", "commission européenne"].any
            (fun org => strContains sous_segment org) then 0.0
  else
    let note_externe := pyStrip (pyUpper (getStr row "note_externe"))
    if ["AAA", "AA+", "AA", "AA-"].any (fun r => strContains note_externe r) then 0.0
    else if ["A+", "A", "A-"].any (fun r => strContains note_externe r) then 0.20
    else if ["BBB+", "BBB", "BBB-"].any (fun r => strContains note_externe r) then 0.50
    else if ["BB+", "BB", "BB-"].any (fun r => strContains note_externe r) then 1.00
    else if ["B+", "B", "B-"].any (fun r => strContains note_externe r) then 1.00
    else if note_externe ≠ ""
            && ["CCC", "CC", "C", "D"].any (fun r => strContains note_externe r) then 1.50
    else
      let note_pmae := pyStrip (getStr row "note_pmae")
      if note_pmae ≠ "" then
        match tableLookup pmae_weights note_pmae with
        | some w => w
        | none => 1.0
      else 1.00

/-- Model of `RWACalculator._calculate_public_org_weighting`. -/
def calculate_public_org_weighting (row : Row) : ℚ :=
  if getFlag row "remboursement_prevu_budget" then 0.20
  else
    let note_externe := getStr row "note_externe"
    if note_externe ≠ "" && pyStrip note_externe ≠ "" then
      get_rating_weighting note_externe "general"
    else 0.50

/-- Model of `RWACalculator._calculate_bmd_weighting`. -/
def calculate_bmd_weighting (row : Row) : ℚ :=
  if getFlag row "accord_bank_maghrib" then 0.0
  else
    let note_externe := pyStrip (pyUpper (getStr row "note_externe"))
    if ["AAA", "AA+"].any (fun r => strContains note_externe r) then 0.20
    else if ["AA", "AA-"].any (fun r => strContains note_externe r) then 0.20
    else if ["A+", "A", "A-"].any (fun r => strContains note_externe r) then 0.50
    else if ["BBB+", "BBB", "BBB-"].any (fun r => strContains note_externe r) then 0.50
    else if ["BB+", "BB", "BB-"].any (fun r => strContains note_externe r) then 1.00
    else if ["B+", "B", "B-"].any (fun r => strContains note_externe r) then 1.00
    else if strContains note_externe "B-"
            || ["CCC", "CC", "C", "D"].any (fun r => strContains note_externe r) then 1.50
    else 0.50

/-- Model of `RWACalculator._calculate_credit_institution_weighting`. -/
def calculate_credit_institution_weighting (row : Row) : ℚ :=
  let note_externe := getStr row "note_externe"
  let echeance_initiale := pyLower (getStr row "echeance_initiale")
  let note_inf_1an := getStr row "note_inf_1an"
  if (echeance_initiale ≠ ""
      && (strContains echeance_initiale "< 1 an"
          || strContains echeance_initiale "inf 1 an"))
     && note_inf_1an ≠ "" then
    get_rating_weighting note_inf_1an "credit_short_term"
  else if note_externe ≠ "" then
    get_rating_weighting note_externe "general"
  else if strContains echeance_initiale "≤ 3 mois"
          || strContains echeance_initiale "< 3 mois" then
    (if pyUpper (getStr row "monnaie") == "MAD" then 0.20
     else get_rating_weighting note_externe "general")
  else 0.50

/-- The guard of `_calculate_enterprise_weighting`'s first branch: maturity
field holding a "< 1 an"/"inf 1 an" marker and a nonempty short-term
rating.  Note: the live source weights a group-affiliated enterprise at
150% on the `appart_grpe` flag alone — it never reads `dette_banc` (unlike
the older snapshot in `attached_assets`, which also required
`dette_banc >= 500000000`). -/
def enterpriseShortPath (row : Row) : Bool :=
  let echeance := pyLower (getStr row "echeance")
  (echeance ≠ ""
    && (strContains echeance "< 1 an" || strContains echeance "inf 1 an"))
  && getStr row "note_inf_1an" ≠ ""

/-- Model of `RWACalculator._calculate_enterprise_weighting` continued: short-term
rating path first, then the Bank-Al-Maghrib-agreement flat 100%, then the
group-affiliation flat 150%, then the general rating table, default 100%. -/
def calculate_enterprise_weighting (row : Row) : ℚ :=
  let note_externe := getStr row "note_externe"
  if enterpriseShortPath row then
    get_rating_weighting (getStr row "note_inf_1an") "enterprise_short_term"
  else if getFlag row "accord_bank_maghrib" then 1.0
  else if getFlag row "appart_grpe" then 1.5
  else if note_externe ≠ "" then
    get_rating_weighting note_externe "general"
  else 1.0

/-- Model of `RWACalculator._calculate_tpe_weighting`. -/
def calculate_tpe_weighting (_row : Row) : ℚ := 0.75

/-- Model of `RWACalculator._calculate_individual_weighting_method` (the
`particulier` resolver). -/
def calculate_individual_weighting_method (row : Row) : Except String ℚ :=
  match getNum row "montant" with
  | Except.error e => Except.error e
  | Except.ok montant =>
    if montant > 1000000 then Except.ok 1.0 else Except.ok 0.75

/-- Model of `RWACalculator._calculate_loan_weighting`. -/
def calculate_loan_weighting (row : Row) : Except String ℚ :=
  let usage := pyLower (getStr row "usage")
  let convention_etat := getFlag row "convention_etat"
  if strContains usage "residentiel" || strContains usage "habitation" then
    Except.ok 0.35
  else if (strContains usage "commercial" || strContains usage "professionnel")
          && getFlag row "garanti_hypotheque" then
    Except.ok 1.0
  else if (strContains usage "commercial" || strContains usage "professionnel")
          && (strContains usage "bail" || strContains usage "location") then
    Except.ok 0.50
  else if convention_etat then
    match getNum row "valeur_bien_hypotheque" with
    | Except.error e => Except.error e
    | Except.ok valeur_bien =>
      match getNum row "montant" with
      | Except.error e => Except.error e
      | Except.ok montant =>
        if valeur_bien > 0 ∧ montant > 0 then
          (if montant / valeur_bien ≤ 0.80 then Except.ok 0.75 else Except.ok 0.35)
        else Except.ok 0.35
  else Except.ok 0.35

/-- Model of `RWACalculator._calculate_distressed_debt_weighting`. -/
def calculate_distressed_debt_weighting (row : Row) : Except String ℚ :=
  match getNum row "valeur_encours_creance" with
  | Except.error e => Except.error e
  | Except.ok valeur_encours =>
    match getNum row "provision_constitue" with
    | Except.error e => Except.error e
    | Except.ok provision =>
      if valeur_encours == 0 then Except.ok 1.50
      else
        let ratio_provision := provision / valeur_encours
        let usage := pyLower (getStr row "usage")
        if strContains usage "residentiel" then
          (if ratio_provision < 0.20 then Except.ok 1.00 else Except.ok 0.50)
        else if ratio_provision < 0.20 then Except.ok 1.50
        else if ratio_provision ≤ 0.50 then Except.ok 1.00
        else Except.ok 0.50

/-- Model of `RWACalculator._calculate_individual_weighting`: segment dispatch.  The
segment string is lowercased (`str(row.get('segment', '')).lower()`) but
never stripped of whitespace; an unmatched segment falls to the flat 1.0
default. -/
def calculate_individual_weighting (row : Row) : Except String ℚ :=
  let segment := pyLower (getStr row "segment")
  if segment == "creance_souffrance" then calculate_distressed_debt_weighting row
  else if segment == "souverain" then Except.ok (calculate_sovereign_weighting row)
  else if segment == "organisme_public" then Except.ok (calculate_public_org_weighting row)
  else if segment == "bmd" then Except.ok (calculate_bmd_weighting row)
  else if segment == "etablissement_credit" then
    Except.ok (calculate_credit_institution_weighting row)
  else if segment == "entreprise" then Except.ok (calculate_enterprise_weighting row)
  else if segment == "tpe" then Except.ok (calculate_tpe_weighting row)
  else if segment == "particulier" then calculate_individual_weighting_method row
  else if segment == "pret" then calculate_loan_weighting row
  else Except.ok 1.0

/-!
Model of `RWACalculator.calculate_rwa`: the per-row loop and the aggregation.  The
per-row result keeps the fields every claim reads (raw segment and
sub-segment, coerced amount, weight, RWA); the audit explanation string and
the segment-specific echo fields copied verbatim from the row are omitted —
they influence no weight and no aggregate.  A raised `ValueError` from
`float(...)` aborts the whole loop, which the `Except` threading mirrors.
-/

/-- One entry of the `results` list built by `calculate_rwa`. -/
structure RowResult where
  segment : String
  sous_segment : String
  montant : ℚ
  ponderation : ℚ
  rwa : ℚ
deriving DecidableEq

/-- The body of the `for idx, row in df.iterrows()` loop: weighting first,
then the `float(row.get('montant', 0))` coercion, then `rwa = montant *
weighting`. -/
def processRow (row : Row) : Except String RowResult :=
  match calculate_individual_weighting row with
  | Except.error e => Except.error e
  | Except.ok weighting =>
    match getNum row "montant" with
    | Except.error e => Except.error e
    | Except.ok montant =>
      Except.ok { segment := getStr row "segment",
                  sous_segment := getStr row "sous_segment",
                  montant := montant,
                  ponderation := weighting,
                  rwa := montant * weighting }

/-- The loop over the whole frame: the first uncaught exception aborts it. -/
def processRows : List Row → Except String (List RowResult)
  | [] => Except.ok []
  | row :: rest =>
    match processRow row with
    | Except.error e => Except.error e
    | Except.ok res =>
      match processRows rest with
      | Except.error e => Except.error e
      | Except.ok others => Except.ok (res :: others)

/-- Model of `pandas.Series.unique`: distinct values in first-occurrence order
(accumulator holds the values already seen). -/
def uniqueAux : List String → List String → List String
  | [], _ => []
  | s :: rest, seen =>
    if s ∈ seen then uniqueAux rest seen else s :: uniqueAux rest (s :: seen)

/-- Distinct values of a column, first occurrence first. -/
def uniqueVals (l : List String) : List String := uniqueAux l []

/-- One entry of `counterparty_analysis`. -/
structure SegmentStats where
  count : ℕ
  total_exposure : ℚ
  total_rwa : ℚ
  avg_weighting : ℚ
deriving DecidableEq

/-- The dictionary returned by `calculate_rwa` (minus the result frame's
echo columns). -/
structure RWAOutput where
  results : List RowResult
  total_rwa : ℚ
  total_exposure : ℚ
  average_weighting : ℚ
  unique_counterparty_types : ℕ
  counterparty_analysis : List (String × SegmentStats)
deriving DecidableEq

/-- The `counterparty_analysis` entry for one raw segment value. -/
def segmentStatsFor (results : List RowResult) (seg : String) : SegmentStats :=
  let data := results.filter (fun r => r.segment == seg)
  let expo := (data.map (fun r => r.montant)).sum
  let rwa := (data.map (fun r => r.rwa)).sum
  { count := data.length,
    total_exposure := expo,
    total_rwa := rwa,
    avg_weighting := if expo > 0 then rwa / expo * 100 else 0 }

/-- Model of `RWACalculator.calculate_rwa(df)`.  `average_weighting` is the percent
figure `total_rwa / total_exposure * 100`, guarded to `0` unless the total
exposure is positive; `counterparty_analysis` is keyed by the raw (never
normalized) segment strings of the result rows; `unique_counterparty_types`
counts the distinct raw segment strings of the input frame. -/
def calculate_rwa (df : List Row) : Except String RWAOutput :=
  match processRows df with
  | Except.error e => Except.error e
  | Except.ok results =>
    let total_rwa := (results.map (fun r => r.rwa)).sum
    let total_exposure := (results.map (fun r => r.montant)).sum
    let average_weighting :=
      if total_exposure > 0 then total_rwa / total_exposure * 100 else 0
    let segs := uniqueVals (results.map (fun r => r.segment))
    Except.ok { results := results,
                total_rwa := total_rwa,
                total_exposure := total_exposure,
                average_weighting := average_weighting,
                unique_counterparty_types :=
                  (uniqueVals (df.map (fun r => getStr r "segment"))).length,
                counterparty_analysis :=
                  segs.map (fun s => (s, segmentStatsFor results s)) }

/-!
Development for the weight-set invariant: every weight the engine can
resolve is one of the seven regulatory fractions.
-/

/-- The closed regulatory weight set of the spec. -/
def inWeightSet (w : ℚ) : Prop :=
  w = 0 ∨ w = 0.20 ∨ w = 0.35 ∨ w = 0.50 ∨ w = 0.75 ∨ w = 1.00 ∨ w = 1.50

theorem ratingTableScan_mem : ∀ (t : List (String × ℚ)) (r : String) (w : ℚ),
    ratingTableScan t r = some w → w ∈ t.map Prod.snd := by
  intro t r
  induction t with
  | nil => intro w h; simp [ratingTableScan] at h
  | cons p rest ih =>
    intro w h
    simp only [ratingTableScan] at h
    simp only [List.map_cons]
    split at h
    · injection h with h
      exact h ▸ List.mem_cons_self _ _
    · exact List.mem_cons_of_mem _ (ih w h)

theorem tableLookup_mem : ∀ (t : List (String × ℚ)) (k : String) (w : ℚ),
    tableLookup t k = some w → w ∈ t.map Prod.snd := by
  intro t k
  induction t with
  | nil => intro w h; simp [tableLookup] at h
  | cons p rest ih =>
    intro w h
    simp only [tableLookup] at h
    simp only [List.map_cons]
    split at h
    · injection h with h
      exact h ▸ List.mem_cons_self _ _
    · exact List.mem_cons_of_mem _ (ih w h)

theorem categoryTable_cases (category : String) :
    categoryTable category = general_rating_table
    ∨ categoryTable category = credit_short_term_table
    ∨ categoryTable category = enterprise_short_term_table := by
  unfold categoryTable
  split_ifs <;> tauto

theorem ratingFallback_mem (r : String) : inWeightSet (ratingFallback r) := by
  unfold ratingFallback
  split_ifs <;> norm_num [inWeightSet]

theorem ratingTableScan_known_mem (t : List (String × ℚ))
    (ht : t = general_rating_table ∨ t = credit_short_term_table
          ∨ t = enterprise_short_term_table ∨ t = pmae_weights)
    (r : String) (w : ℚ) (h : ratingTableScan t r = some w) : inWeightSet w := by
  have hm := ratingTableScan_mem t r w h
  rcases ht with rfl | rfl | rfl | rfl <;>
    (simp [general_rating_table, credit_short_term_table, enterprise_short_term_table,
       pmae_weights] at hm) <;>
    rcases hm with rfl | rfl | rfl | rfl | rfl <;> norm_num [inWeightSet]

theorem get_rating_weighting_mem (rating category : String) :
    inWeightSet (get_rating_weighting rating category) := by
  simp only [get_rating_weighting]
  split
  case h_1 w hw =>
    exact ratingTableScan_known_mem _ (by rcases categoryTable_cases category with h | h | h <;> tauto)
      _ _ hw
  case h_2 => exact ratingFallback_mem _

theorem calculate_sovereign_weighting_mem (row : Row) :
    inWeightSet (calculate_sovereign_weighting row) := by
  simp only [calculate_sovereign_weighting]
  split_ifs <;> try norm_num [inWeightSet]
  split
  next w hw =>
    have hm := tableLookup_mem _ _ _ hw
    simp [pmae_weights] at hm
    rcases hm with rfl | rfl | rfl | rfl | rfl <;> norm_num [inWeightSet]
  next => norm_num [inWeightSet]

theorem calculate_public_org_weighting_mem (row : Row) :
    inWeightSet (calculate_public_org_weighting row) := by
  simp only [calculate_public_org_weighting]
  split_ifs <;> first
    | apply get_rating_weighting_mem
    | norm_num [inWeightSet]

theorem calculate_bmd_weighting_mem (row : Row) :
    inWeightSet (calculate_bmd_weighting row) := by
  simp only [calculate_bmd_weighting]
  split_ifs <;> norm_num [inWeightSet]

theorem calculate_credit_institution_weighting_mem (row : Row) :
    inWeightSet (calculate_credit_institution_weighting row) := by
  simp only [calculate_credit_institution_weighting]
  split_ifs <;> first
    | apply get_rating_weighting_mem
    | norm_num [inWeightSet]

theorem calculate_enterprise_weighting_mem (row : Row) :
    inWeightSet (calculate_enterprise_weighting row) := by
  simp only [calculate_enterprise_weighting]
  split_ifs <;> first
    | apply get_rating_weighting_mem
    | norm_num [inWeightSet]

theorem calculate_individual_weighting_method_mem (row : Row) (w : ℚ)
    (h : calculate_individual_weighting_method row = Except.ok w) : inWeightSet w := by
  simp only [calculate_individual_weighting_method] at h
  split at h
  · exact Except.noConfusion h
  · split_ifs at h <;> (injection h with h; subst h; norm_num [inWeightSet])

theorem calculate_loan_weighting_mem (row : Row) (w : ℚ)
    (h : calculate_loan_weighting row = Except.ok w) : inWeightSet w := by
  simp only [calculate_loan_weighting] at h
  split_ifs at h <;>
    first
      | (injection h with h; subst h; norm_num [inWeightSet])
      | (split at h
         · exact Except.noConfusion h
         · split at h
           · exact Except.noConfusion h
           · split_ifs at h <;> (injection h with h; subst h; norm_num [inWeightSet]))

theorem calculate_distressed_debt_weighting_mem (row : Row) (w : ℚ)
    (h : calculate_distressed_debt_weighting row = Except.ok w) : inWeightSet w := by
  simp only [calculate_distressed_debt_weighting] at h
  split at h
  · exact Except.noConfusion h
  · split at h
    · exact Except.noConfusion h
    · split_ifs at h <;> (injection h with h; subst h; norm_num [inWeightSet])

theorem calculate_individual_weighting_mem (row : Row) (w : ℚ)
    (h : calculate_individual_weighting row = Except.ok w) : inWeightSet w := by
  simp only [calculate_individual_weighting] at h
  split_ifs at h <;>
    first
      | exact calculate_distressed_debt_weighting_mem row w h
      | exact calculate_individual_weighting_method_mem row w h
      | exact calculate_loan_weighting_mem row w h
      | (injection h with h; subst h)
  · exact calculate_sovereign_weighting_mem row
  · exact calculate_public_org_weighting_mem row
  · exact calculate_bmd_weighting_mem row
  · exact calculate_credit_institution_weighting_mem row
  · exact calculate_enterprise_weighting_mem row
  · simp only [calculate_tpe_weighting]; norm_num [inWeightSet]
  · norm_num [inWeightSet]

/-- C1: for every exposure row on which the engine resolves a weight, that
weight is exactly one of {0, 0.20, 0.35, 0.50, 0.75, 1.00, 1.50}, and the
per-row RWA (amount × weight) built from it by the `calculate_rwa` loop is
nonnegative whenever the coerced amount is nonnegative. -/
theorem weight_in_closed_set (row : Row) (w : ℚ)
    (h : calculate_individual_weighting row = Except.ok w) :
    (w = 0 ∨ w = 0.20 ∨ w = 0.35 ∨ w = 0.50 ∨ w = 0.75 ∨ w = 1.00 ∨ w = 1.50) ∧
    ∀ res : RowResult, processRow row = Except.ok res → 0 ≤ res.montant → 0 ≤ res.rwa := by
  have hmem := calculate_individual_weighting_mem row w h
  refine ⟨hmem, ?_⟩
  intro res hres hm
  simp only [processRow, h] at hres
  split at hres
  · exact Except.noConfusion hres
  · injection hres with hres
    subst hres
    have hw : (0:ℚ) ≤ w := by
      rcases hmem with rfl | rfl | rfl | rfl | rfl | rfl | rfl <;> norm_num
    simpa using mul_nonneg hm hw

/-- C1 witness: the invariant instantiated on a concrete micro-enterprise
row (weight 0.75). -/
theorem weight_in_closed_set_witness :
    ((0.75:ℚ) = 0 ∨ (0.75:ℚ) = 0.20 ∨ (0.75:ℚ) = 0.35 ∨ (0.75:ℚ) = 0.50
      ∨ (0.75:ℚ) = 0.75 ∨ (0.75:ℚ) = 1.00 ∨ (0.75:ℚ) = 1.50) ∧
    ∀ res : RowResult,
      processRow [("segment", FieldVal.str "tpe"), ("montant", FieldVal.num 250000)]
        = Except.ok res → 0 ≤ res.montant → 0 ≤ res.rwa :=
  weight_in_closed_set [("segment", FieldVal.str "tpe"), ("montant", FieldVal.num 250000)]
    0.75 (by rfl)

/-- C2 (what the code does): `_get_rating_weighting` on a blank rating in
the general category returns 0.20, because the empty string is a substring
of the first bucket key "AAA à AA-" (`rating in rating_range` is `True` for
`rating == ''`), not the 0.50 "Pas de notation" default its own table and
closing comment document.  A garbled rating containing none of the scanned
letters does fall to the 0.50 default. -/
theorem blank_rating_returns_first_bucket :
    get_rating_weighting "" "general" = 0.20 ∧
    get_rating_weighting "XYZ" "general" = 0.50 := by
  exact ⟨rfl, rfl⟩

/-- C3: for a distressed-debt exposure (segment `creance_souffrance`), the
weight follows the provision ratio (provision held / outstanding balance):
zero outstanding balance forces 1.50; otherwise, non-residential usage maps
ratio < 0.20 to 1.50, 0.20 ≤ ratio ≤ 0.50 (boundaries inclusive) to 1.00,
ratio > 0.50 to 0.50, and residential usage maps ratio < 0.20 to 1.00 and
ratio ≥ 0.20 to 0.50. -/
theorem distressed_debt_provision_rule (row : Row) (enc prov : ℚ)
    (hseg : pyLower (getStr row "segment") = "creance_souffrance")
    (henc : getNum row "valeur_encours_creance" = Except.ok enc)
    (hprov : getNum row "provision_constitue" = Except.ok prov) :
    (enc = 0 → calculate_individual_weighting row = Except.ok 1.50) ∧
    (enc ≠ 0 → strContains (pyLower (getStr row "usage")) "residentiel" = false →
      ((prov / enc < 0.20 → calculate_individual_weighting row = Except.ok 1.50) ∧
       (0.20 ≤ prov / enc → prov / enc ≤ 0.50 →
          calculate_individual_weighting row = Except.ok 1.00) ∧
       (0.50 < prov / enc → calculate_individual_weighting row = Except.ok 0.50))) ∧
    (enc ≠ 0 → strContains (pyLower (getStr row "usage")) "residentiel" = true →
      ((prov / enc < 0.20 → calculate_individual_weighting row = Except.ok 1.00) ∧
       (0.20 ≤ prov / enc → calculate_individual_weighting row = Except.ok 0.50))) := by
  have hdisp : calculate_individual_weighting row = calculate_distressed_debt_weighting row := by
    simp only [calculate_individual_weighting, hseg]
    rfl
  rw [hdisp]
  simp only [calculate_distressed_debt_weighting, henc, hprov]
  refine ⟨?_, ?_, ?_⟩
  · intro h0
    simp [h0]
  · intro h0 hres
    have hne : (enc == 0) = false := by simp [h0]
    simp only [hne, hres, Bool.false_eq_true, if_false]
    refine ⟨?_, ?_, ?_⟩
    · intro hlt
      rw [if_pos hlt]
    · intro h1 h2
      rw [if_neg (not_lt.2 h1), if_pos h2]
    · intro h3
      rw [if_neg (not_lt.2 (le_of_lt (lt_of_le_of_lt (by norm_num) h3))),
          if_neg (not_le.2 h3)]
  · intro h0 hres
    have hne : (enc == 0) = false := by simp [h0]
    simp only [hne, hres, if_true, Bool.false_eq_true, if_false]
    refine ⟨?_, ?_⟩
    · intro hlt
      rw [if_pos hlt]
    · intro h1
      rw [if_neg (not_lt.2 h1)]

/-- C3 witness: the rule instantiated on the spec's own example — balance
1,000,000, provision 100,000 (ratio 10%), non-residential. -/
theorem distressed_debt_provision_rule_witness :
    letI row : Row := [("segment", FieldVal.str "creance_souffrance"),
      ("valeur_encours_creance", FieldVal.num 1000000),
      ("provision_constitue", FieldVal.num 100000)]
    ((1000000 : ℚ) = 0 → calculate_individual_weighting row = Except.ok 1.50) ∧
    ((1000000 : ℚ) ≠ 0 → strContains (pyLower (getStr row "usage")) "residentiel" = false →
      (((100000 : ℚ) / 1000000 < 0.20 → calculate_individual_weighting row = Except.ok 1.50) ∧
       (0.20 ≤ (100000 : ℚ) / 1000000 → (100000 : ℚ) / 1000000 ≤ 0.50 →
          calculate_individual_weighting row = Except.ok 1.00) ∧
       (0.50 < (100000 : ℚ) / 1000000 → calculate_individual_weighting row = Except.ok 0.50))) ∧
    ((1000000 : ℚ) ≠ 0 → strContains (pyLower (getStr row "usage")) "residentiel" = true →
      (((100000 : ℚ) / 1000000 < 0.20 → calculate_individual_weighting row = Except.ok 1.00) ∧
       (0.20 ≤ (100000 : ℚ) / 1000000 → calculate_individual_weighting row = Except.ok 0.50))) :=
  distressed_debt_provision_rule _ 1000000 100000 rfl rfl rfl

unseal Rat.add Rat.sub Rat.mul Rat.inv Rat.ofScientific in
/-- C4 counterexample: (i) an enterprise exposure with the group flag set,
bank debt 600,000,000 and no agreement flag resolves to 0.20 — not 1.50 —
as soon as the maturity field reads "< 1 an" and the short-term rating is
"A-1", because the short-term rating path runs before the group clause;
(ii) the 150% clause does not require bank debt ≥ 500,000,000: it fires
with bank debt 0. -/
theorem enterprise_group_claim_counterexample :
    calculate_individual_weighting
      [("segment", FieldVal.str "entreprise"), ("appart_grpe", FieldVal.bool true),
       ("dette_banc", FieldVal.num 600000000),
       ("accord_bank_maghrib", FieldVal.bool false),
       ("echeance", FieldVal.str "< 1 an"), ("note_inf_1an", FieldVal.str "A-1")]
      = Except.ok 0.20 ∧
    calculate_individual_weighting
      [("segment", FieldVal.str "entreprise"), ("appart_grpe", FieldVal.bool true),
       ("dette_banc", FieldVal.num 0),
       ("accord_bank_maghrib", FieldVal.bool false)]
      = Except.ok 1.50 := by
  decide

/-- C4 (amended): in the live module the enterprise 150% clause fires on
the group-affiliation flag alone — for any bank-debt value and any standard
rating — provided the agreement flag is off and the short-term-maturity
rating path is not taken; that path (maturity "< 1 an"/"inf 1 an" plus a
nonempty short-term rating) runs first and overrides the group clause. -/
theorem enterprise_group_flag_gives_150 (row : Row)
    (hseg : pyLower (getStr row "segment") = "entreprise")
    (hshort : enterpriseShortPath row = false)
    (hacc : getFlag row "accord_bank_maghrib" = false)
    (hgrp : getFlag row "appart_grpe" = true) :
    calculate_individual_weighting row = Except.ok 1.50 := by
  have hdisp : calculate_individual_weighting row
      = Except.ok (calculate_enterprise_weighting row) := by
    simp only [calculate_individual_weighting, hseg]
    rfl
  rw [hdisp]
  simp only [calculate_enterprise_weighting, hshort, hacc, hgrp,
    Bool.false_eq_true, if_false, if_true]
  norm_num

/-- C4 witness: group flag set, bank debt 0, a rated counterparty, no
maturity field — the group clause still yields 1.50. -/
theorem enterprise_group_flag_gives_150_witness :
    calculate_individual_weighting
      [("segment", FieldVal.str "entreprise"), ("appart_grpe", FieldVal.bool true),
       ("dette_banc", FieldVal.num 0), ("note_externe", FieldVal.str "AAA")]
      = Except.ok 1.50 :=
  enterprise_group_flag_gives_150 _ rfl rfl rfl rfl

/-- C5: a sovereign exposure whose sub-segment names the Moroccan state or
Bank Al-Maghrib (the code's markers "maroc"/"bam", matched
case-insensitively) in domestic currency MAD resolves to weight 0, whatever
the external-rating and PMAE fields hold. -/
theorem sovereign_domestic_zero_weight (row : Row)
    (hseg : pyLower (getStr row "segment") = "souverain")
    (hss : strContains (pyLower (getStr row "sous_segment")) "maroc" = true
           ∨ strContains (pyLower (getStr row "sous_segment")) "bam" = true)
    (hmon : pyUpper (getStr row "monnaie") = "MAD") :
    calculate_individual_weighting row = Except.ok 0 := by
  have hdisp : calculate_individual_weighting row
      = Except.ok (calculate_sovereign_weighting row) := by
    simp only [calculate_individual_weighting, hseg]
    rfl
  rw [hdisp]
  have hcond : ((strContains (pyLower (getStr row "sous_segment")) "maroc"
      || strContains (pyLower (getStr row "sous_segment")) "bam"
      || strContains (pyLower (getStr row "sous_segment")) "bank al-maghrib")
      && (pyUpper (getStr row "monnaie") == "MAD")) = true := by
    rcases hss with h | h <;> simp [h, hmon]
  simp only [calculate_sovereign_weighting, hcond, if_true]
  norm_num

/-- C5 witness: "Etat Marocain" in lowercase-mad currency, with a bad
external rating and the worst PMAE class, still weighs 0. -/
theorem sovereign_domestic_zero_weight_witness :
    calculate_individual_weighting
      [("segment", FieldVal.str "souverain"),
       ("sous_segment", FieldVal.str "Etat Marocain"),
       ("monnaie", FieldVal.str "mad"), ("note_externe", FieldVal.str "CCC"),
       ("note_pmae", FieldVal.str "7")] = Except.ok 0 :=
  sovereign_domestic_zero_weight _ rfl (Or.inl rfl) rfl

/-- C6 counterexample: one row whose amount field holds the non-numeric
string "abc" makes `calculate_rwa` raise the float-conversion error — the
batch aborts and no result is produced for any row, instead of the amount
being treated as 0. -/
theorem nonnumeric_amount_aborts_batch :
    calculate_rwa [[("segment", FieldVal.str "tpe"), ("montant", FieldVal.str "abc")]]
      = Except.error "could not convert string to float: abc" := by
  rfl

/-- C6 (amended): an absent amount field is coerced to 0 — the row yields
RWA 0 and the remaining rows of the batch are still processed — but a
non-numeric amount string raises (see the counterexample); only the missing
case is defensive. -/
theorem missing_amount_treated_as_zero (row : Row) (w : ℚ) (df : List Row)
    (outTail : RWAOutput)
    (hmiss : row.get "montant" (FieldVal.num 0) = FieldVal.num 0)
    (hw : calculate_individual_weighting row = Except.ok w)
    (htail : calculate_rwa df = Except.ok outTail) :
    processRow row
      = Except.ok ⟨getStr row "segment", getStr row "sous_segment", 0, w, 0⟩ ∧
    ∃ out : RWAOutput, calculate_rwa (row :: df) = Except.ok out ∧
      out.results
        = ⟨getStr row "segment", getStr row "sous_segment", 0, w, 0⟩ :: outTail.results := by
  have hnum : getNum row "montant" = Except.ok 0 := by
    unfold getNum
    rw [hmiss]
    rfl
  have hp : processRow row
      = Except.ok ⟨getStr row "segment", getStr row "sous_segment", 0, w, 0⟩ := by
    simp only [processRow, hw, hnum]
    norm_num
  refine ⟨hp, ?_⟩
  unfold calculate_rwa at htail ⊢
  cases hd : processRows df with
  | error e =>
    rw [hd] at htail
    exact Except.noConfusion htail
  | ok results =>
    rw [hd] at htail
    injection htail with htail
    have hrows : processRows (row :: df)
        = Except.ok (⟨getStr row "segment", getStr row "sous_segment", 0, w, 0⟩ :: results) := by
      simp only [processRows, hp, hd]
    rw [hrows]
    refine ⟨_, rfl, ?_⟩
    rw [← htail]

/-- C6 witness: a micro-enterprise row with no amount field at all, in a
one-row batch — weight 0.75, amount coerced to 0, RWA 0, batch completes. -/
theorem missing_amount_treated_as_zero_witness :
    processRow [("segment", FieldVal.str "tpe")]
      = Except.ok ⟨"tpe", "", 0, 0.75, 0⟩ ∧
    ∃ out : RWAOutput, calculate_rwa [[("segment", FieldVal.str "tpe")]] = Except.ok out ∧
      out.results = [⟨"tpe", "", 0, 0.75, 0⟩] :=
  missing_amount_treated_as_zero [("segment", FieldVal.str "tpe")] 0.75 []
    ⟨[], 0, 0, 0, 0, []⟩ rfl rfl rfl

/-- The nine segment strings the dispatcher recognizes (it compares the
lowercased segment against these, in this order). -/
def knownSegments : List String :=
  ["creance_souffrance", "souverain", "organisme_public", "bmd",
   "etablissement_credit", "entreprise", "tpe", "particulier", "pret"]

unseal Rat.add Rat.sub Rat.mul Rat.inv Rat.ofScientific in
/-- C7 counterexample: the dispatcher lowercases but never strips, so the
segment "TPE " (trailing blank) — differing from the known segment "tpe"
only in case and surrounding whitespace — is NOT routed to the
micro-enterprise resolver (weight 0.75) but falls to the unknown-segment
default weight 1.00. -/
theorem whitespace_segment_not_normalized :
    calculate_individual_weighting [("segment", FieldVal.str "TPE ")] = Except.ok 1.00 ∧
    calculate_individual_weighting [("segment", FieldVal.str "tpe")] = Except.ok 0.75 := by
  decide

/-- C7 (amended): dispatch is total and normalizes letter case only
(`lower()`, never `strip()`): the lowercased segment alone selects the
resolver, and any segment string whose lowercased form matches none of the
nine known segments — including whitespace-padded known segments and
"unknown_type" — yields flat weight 1.00 and RWA = amount, with no fault. -/
theorem segment_dispatch_case_only (row : Row) (seg : String)
    (hseg : getStr row "segment" = seg) :
    (pyLower seg ∉ knownSegments →
      calculate_individual_weighting row = Except.ok 1.00 ∧
      ∀ m : ℚ, getNum row "montant" = Except.ok m →
        processRow row = Except.ok ⟨seg, getStr row "sous_segment", m, 1.00, m⟩) ∧
    (pyLower seg = "creance_souffrance" →
      calculate_individual_weighting row = calculate_distressed_debt_weighting row) ∧
    (pyLower seg = "souverain" →
      calculate_individual_weighting row = Except.ok (calculate_sovereign_weighting row)) ∧
    (pyLower seg = "organisme_public" →
      calculate_individual_weighting row = Except.ok (calculate_public_org_weighting row)) ∧
    (pyLower seg = "bmd" →
      calculate_individual_weighting row = Except.ok (calculate_bmd_weighting row)) ∧
    (pyLower seg = "etablissement_credit" →
      calculate_individual_weighting row
        = Except.ok (calculate_credit_institution_weighting row)) ∧
    (pyLower seg = "entreprise" →
      calculate_individual_weighting row = Except.ok (calculate_enterprise_weighting row)) ∧
    (pyLower seg = "tpe" →
      calculate_individual_weighting row = Except.ok 0.75) ∧
    (pyLower seg = "particulier" →
      calculate_individual_weighting row = calculate_individual_weighting_method row) ∧
    (pyLower seg = "pret" →
      calculate_individual_weighting row = calculate_loan_weighting row) := by
  refine ⟨?_, ?_, ?_, ?_, ?_, ?_, ?_, ?_, ?_, ?_⟩ <;> intro hu
  case _ =>
    simp only [knownSegments, List.mem_cons, List.not_mem_nil, or_false, not_or] at hu
    obtain ⟨h1, h2, h3, h4, h5, h6, h7, h8, h9⟩ := hu
    have hciw : calculate_individual_weighting row = Except.ok 1.0 := by
      simp only [calculate_individual_weighting, hseg,
        beq_eq_false_iff_ne.2 h1, beq_eq_false_iff_ne.2 h2, beq_eq_false_iff_ne.2 h3,
        beq_eq_false_iff_ne.2 h4, beq_eq_false_iff_ne.2 h5, beq_eq_false_iff_ne.2 h6,
        beq_eq_false_iff_ne.2 h7, beq_eq_false_iff_ne.2 h8, beq_eq_false_iff_ne.2 h9,
        Bool.false_eq_true, if_false]
    refine ⟨by rw [hciw]; norm_num, ?_⟩
    intro m hm
    simp only [processRow, hciw, hm, hseg]
    have : m * (1.0 : ℚ) = m := by norm_num
    rw [this]
    norm_num
  all_goals
    simp only [calculate_individual_weighting, hseg, hu]
    rfl

/-- C7 witness: the spec's example — segment "unknown_type", amount
500,000 — weight 1.00, RWA 500,000, no fault. -/
theorem segment_dispatch_case_only_witness :
    calculate_individual_weighting
      [("segment", FieldVal.str "unknown_type"), ("montant", FieldVal.num 500000)]
      = Except.ok 1.00 ∧
    processRow [("segment", FieldVal.str "unknown_type"), ("montant", FieldVal.num 500000)]
      = Except.ok ⟨"unknown_type", "", 500000, 1.00, 500000⟩ := by
  have h := (segment_dispatch_case_only
    [("segment", FieldVal.str "unknown_type"), ("montant", FieldVal.num 500000)]
    "unknown_type" rfl).1 (by decide)
  exact ⟨h.1, h.2 500000 rfl⟩

unseal Rat.add Rat.sub Rat.mul Rat.inv Rat.ofScientific in
/-- C8 counterexample: one micro-enterprise row of amount 100 gives total
RWA 75 and total exposure 100, but the returned aggregate average weight is
75 — the percent figure — not the quotient 75/100 the claim states. -/
theorem average_weighting_percent_counterexample :
    (calculate_rwa [[("segment", FieldVal.str "tpe"),
        ("montant", FieldVal.num 100)]]).map
      (fun o => (o.average_weighting, o.total_rwa, o.total_exposure))
      = Except.ok (75, 75, 100) ∧
    (75 : ℚ) ≠ 75 / 100 := by
  decide

/-- C8 (amended): the aggregate average weight is the percent figure
total RWA / total exposure × 100 when the total exposure is positive and 0
otherwise — in particular 0 at zero total exposure, with no division fault
— and the same holds for every per-segment average in the counterparty
breakdown. -/
theorem average_weighting_formula (df : List Row) (out : RWAOutput)
    (h : calculate_rwa df = Except.ok out) :
    (out.average_weighting
      = if 0 < out.total_exposure then out.total_rwa / out.total_exposure * 100 else 0) ∧
    (out.total_exposure = 0 → out.average_weighting = 0) ∧
    ∀ p ∈ out.counterparty_analysis,
      (p.2.avg_weighting
        = if 0 < p.2.total_exposure then p.2.total_rwa / p.2.total_exposure * 100 else 0) ∧
      (p.2.total_exposure = 0 → p.2.avg_weighting = 0) := by
  unfold calculate_rwa at h
  cases hd : processRows df with
  | error e =>
    rw [hd] at h
    exact Except.noConfusion h
  | ok results =>
    rw [hd] at h
    injection h with h
    subst h
    refine ⟨rfl, ?_, ?_⟩
    · intro h0
      dsimp only at h0 ⊢
      rw [h0]
      norm_num
    · intro p hp
      dsimp only at hp
      rw [List.mem_map] at hp
      obtain ⟨s, hs, rfl⟩ := hp
      refine ⟨rfl, ?_⟩
      intro h0
      dsimp only [segmentStatsFor] at h0 ⊢
      rw [h0]
      norm_num

/-- C8 witness: the formula on the empty batch — zero total exposure,
average 0, empty breakdown, no fault. -/
theorem average_weighting_formula_witness :
    letI out : RWAOutput := ⟨[], 0, 0, 0, 0, []⟩
    (out.average_weighting
      = if 0 < out.total_exposure then out.total_rwa / out.total_exposure * 100 else 0) ∧
    (out.total_exposure = 0 → out.average_weighting = 0) ∧
    ∀ p ∈ out.counterparty_analysis,
      (p.2.avg_weighting
        = if 0 < p.2.total_exposure then p.2.total_rwa / p.2.total_exposure * 100 else 0) ∧
      (p.2.total_exposure = 0 → p.2.avg_weighting = 0) :=
  average_weighting_formula [] ⟨[], 0, 0, 0, 0, []⟩ rfl

/-- C9: an individual ("particulier") exposure weighs 1.00 exactly when its
amount exceeds 1,000,000 and 0.75 otherwise; the mortgage-guarantee flag
(and every other field) plays no role. -/
theorem particulier_million_threshold (row : Row) (m : ℚ)
    (hseg : pyLower (getStr row "segment") = "particulier")
    (hm : getNum row "montant" = Except.ok m) :
    calculate_individual_weighting row
      = Except.ok (if 1000000 < m then 1.00 else 0.75) := by
  have hdisp : calculate_individual_weighting row
      = calculate_individual_weighting_method row := by
    simp only [calculate_individual_weighting, hseg]
    rfl
  rw [hdisp]
  simp only [calculate_individual_weighting_method, hm]
  split_ifs with h1 <;> norm_num

/-- C9 witness: amount 1,500,000 (no mortgage guarantee) gives weight 1.00;
amount 900,000 (with mortgage guarantee) gives 0.75. -/
theorem particulier_million_threshold_witness :
    calculate_individual_weighting
      [("segment", FieldVal.str "particulier"), ("montant", FieldVal.num 1500000),
       ("garanti_hypotheque", FieldVal.bool false)]
      = Except.ok (if (1000000:ℚ) < 1500000 then 1.00 else 0.75) ∧
    calculate_individual_weighting
      [("segment", FieldVal.str "particulier"), ("montant", FieldVal.num 900000),
       ("garanti_hypotheque", FieldVal.bool true)]
      = Except.ok (if (1000000:ℚ) < 900000 then 1.00 else 0.75) :=
  ⟨particulier_million_threshold _ 1500000 rfl rfl,
   particulier_million_threshold _ 900000 rfl rfl⟩

theorem mem_uniqueAux : ∀ (l seen : List String) (a : String),
    a ∈ uniqueAux l seen ↔ a ∈ l ∧ a ∉ seen := by
  intro l
  induction l with
  | nil => intro seen a; simp [uniqueAux]
  | cons s rest ih =>
    intro seen a
    simp only [uniqueAux]
    split_ifs with hs
    · rw [ih]
      simp only [List.mem_cons]
      constructor
      · rintro ⟨h1, h2⟩
        exact ⟨Or.inr h1, h2⟩
      · rintro ⟨h1 | h1, h2⟩
        · exact absurd (h1 ▸ hs) h2
        · exact ⟨h1, h2⟩
    · simp only [List.mem_cons, ih]
      constructor
      · rintro (rfl | ⟨h1, h2⟩)
        · exact ⟨Or.inl rfl, hs⟩
        · exact ⟨Or.inr h1, fun hx => h2 (Or.inr hx)⟩
      · rintro ⟨rfl | h1, h2⟩
        · exact Or.inl rfl
        · by_cases has : a = s
          · exact Or.inl has
          · exact Or.inr ⟨h1, fun hx => by
              rcases hx with h | h
              · exact has h
              · exact h2 h⟩

theorem nodup_uniqueAux : ∀ (l seen : List String), (uniqueAux l seen).Nodup := by
  intro l
  induction l with
  | nil => intro seen; simp [uniqueAux]
  | cons s rest ih =>
    intro seen
    simp only [uniqueAux]
    split_ifs with hs
    · exact ih seen
    · refine List.nodup_cons.2 ⟨?_, ih (s :: seen)⟩
      intro hmem
      exact ((mem_uniqueAux rest (s :: seen) s).1 hmem).2 (List.mem_cons_self s seen)

unseal Rat.add Rat.sub Rat.mul Rat.inv Rat.ofScientific in
/-- C10: the counterparty breakdown is keyed by the raw, un-normalized
segment strings — its keys are exactly the distinct raw segment values of
the result rows, one entry each — and `unique_counterparty_types` is the
number of distinct raw segment strings of the input frame.  Concretely,
"tpe" and "TPE" rows both weigh 0.75 through the same resolver yet form two
separate breakdown entries and count as two segment types. -/
theorem counterparty_analysis_raw_keys (df : List Row) (out : RWAOutput)
    (h : calculate_rwa df = Except.ok out) :
    (out.counterparty_analysis.map Prod.fst).Nodup ∧
    (∀ s : String, s ∈ out.counterparty_analysis.map Prod.fst
        ↔ s ∈ out.results.map (fun r => r.segment)) ∧
    out.unique_counterparty_types
      = (uniqueVals (df.map (fun r => getStr r "segment"))).length ∧
    (calculate_rwa [[("segment", FieldVal.str "tpe"), ("montant", FieldVal.num 10)],
        [("segment", FieldVal.str "TPE"), ("montant", FieldVal.num 20)]]).map
      (fun o => (o.results.map (fun r => (r.segment, r.ponderation)),
                 o.counterparty_analysis.map Prod.fst, o.unique_counterparty_types))
      = Except.ok ([("tpe", 0.75), ("TPE", 0.75)], ["tpe", "TPE"], 2) := by
  unfold calculate_rwa at h
  cases hd : processRows df with
  | error e =>
    rw [hd] at h
    exact Except.noConfusion h
  | ok results =>
    rw [hd] at h
    injection h with h
    subst h
    have hkeys : (List.map (fun s => (s, segmentStatsFor results s))
        (uniqueVals (results.map (fun r => r.segment)))).map Prod.fst
        = uniqueVals (results.map (fun r => r.segment)) := by
      rw [List.map_map]
      exact List.map_id _
    refine ⟨?_, ?_, rfl, by decide⟩
    · dsimp only
      rw [hkeys]
      exact nodup_uniqueAux _ _
    · intro s
      dsimp only
      rw [hkeys, uniqueVals, mem_uniqueAux]
      simp

/-- C10 witness: the keying facts on the empty batch, carrying the
"tpe"/"TPE" two-row evaluation. -/
theorem counterparty_analysis_raw_keys_witness :
    letI out : RWAOutput := ⟨[], 0, 0, 0, 0, []⟩
    (out.counterparty_analysis.map Prod.fst).Nodup ∧
    (∀ s : String, s ∈ out.counterparty_analysis.map Prod.fst
        ↔ s ∈ out.results.map (fun r => r.segment)) ∧
    out.unique_counterparty_types
      = (uniqueVals (([] : List Row).map (fun r => getStr r "segment"))).length ∧
    (calculate_rwa [[("segment", FieldVal.str "tpe"), ("montant", FieldVal.num 10)],
        [("segment", FieldVal.str "TPE"), ("montant", FieldVal.num 20)]]).map
      (fun o => (o.results.map (fun r => (r.segment, r.ponderation)),
                 o.counterparty_analysis.map Prod.fst, o.unique_counterparty_types))
      = Except.ok ([("tpe", 0.75), ("TPE", 0.75)], ["tpe", "TPE"], 2) :=
  counterparty_analysis_raw_keys [] ⟨[], 0, 0, 0, 0, []⟩ rfl
